import Mathlib

/-!
Verification of the fault-isolation middleware `x/auth/middleware/panic.go`.

The Go file defines a `panicTxHandler` decorating an inner `tx.TxHandler`
with panic recovery around the three entry points `CheckTx`, `DeliverTx`
and `SimulateTx`, a recovery-middleware chain (`processRecovery`,
`newRecoveryMiddleware`, `newOutOfGasRecoveryMiddleware`,
`newDefaultRecoveryMiddleware`), and — on the `DeliverTx` path — a
block-gas pre-check plus a nested deferred reconciliation step that folds
the transaction gas meter into the block gas meter.

Gas meters are Go interface values in the source (`sdkCtx.GasMeter()`,
`sdkCtx.BlockGasMeter()`); we embed them as a record of operations
`MeterOps` over an abstract state type, with the concrete basic meter
`basicOps` modelled from the specification. Panics are embedded as
explicit `Payload` values threaded through `Outcome`; Go's defer/recover
control flow of each entry point is translated into the corresponding
pure function on the context.
-/

/-- A recovery object: the value carried by an abnormal termination.
`errorOutOfGas` embeds `sdk.ErrorOutOfGas` (a recognized budget fault with
a descriptor), `errorGasOverflow` embeds `sdk.ErrorGasOverflow`, and
`other` stands for any unrecognized payload, carrying its textual
representation. -/
inductive Payload where
  | errorOutOfGas (descriptor : String)
  | errorGasOverflow (descriptor : String)
  | other (text : String)
deriving DecidableEq

/-- The textual representation of a payload, as produced by Go's fmt
verb v: a struct prints as its fields between braces. -/
def Payload.toText : Payload → String
  | Payload.errorOutOfGas descriptor => "\x7b" ++ descriptor ++ "\x7d"
  | Payload.errorGasOverflow descriptor => "\x7b" ++ descriptor ++ "\x7d"
  | Payload.other text => text

/-- Whether the payload is a recognized `sdk.ErrorOutOfGas` budget fault
(the type assertion performed by the out-of-gas recovery handler). -/
def Payload.isErrorOutOfGas : Payload → Bool
  | Payload.errorOutOfGas _ => true
  | _ => false

/-- The registered error kinds this file uses: `sdkerrors.ErrOutOfGas`
and `sdkerrors.ErrPanic`. The constructor
`accountingInvariantViolation` is named by the specification's error
taxonomy only; no code path in the source constructs it — it is kept so
that statements about which kind the code returns can be expressed. -/
inductive ErrKind where
  | outOfGas
  | panicErr
  | accountingInvariantViolation
deriving DecidableEq

/-- A structured error: a registered kind plus a human-readable message.
`wrap` below models `sdkerrors.Wrap`, which preserves the registered
error's kind and attaches the message. -/
structure SdkError where
  kind : ErrKind
  msg : String
deriving DecidableEq

/-- Models `sdkerrors.Wrap(err, msg)`: the registered kind is preserved
and the supplied message becomes the error's text. -/
def wrap (kind : ErrKind) (msg : String) : SdkError := SdkError.mk kind msg

/-- Modelled from the spec: the call-stack snapshot captured at catch
time (`runtime/debug.Stack()` in the source). The snapshot's contents are
runtime state outside the program text; it is modelled as an abstract
marker string. -/
def debugStack : String := "goroutine stack snapshot"

/-- `recoveryHandler`: returns a non-nil error if the recovery object was
processed, nil (`none`) if it was not. -/
def RecoveryHandler : Type := Payload → Option SdkError

/-- `recoveryMiddleware`: the source's chained recovery handling. In Go
this is a closure type; every chain the source builds is finitely
constructed from `newRecoveryMiddleware` closures ending in nil, which is
exactly this inductive: `mk handler next` is the closure
`newRecoveryMiddleware(handler, next)` and `nil` is Go's nil
middleware. -/
inductive RecoveryMiddleware where
  | nil
  | mk (handler : RecoveryHandler) (next : RecoveryMiddleware)

/-- `newRecoveryMiddleware` creates a RecoveryHandler middleware node:
applied to a recovery object it stops with the handler's error when
non-nil and otherwise passes to `next`. -/
def newRecoveryMiddleware (handler : RecoveryHandler) (next : RecoveryMiddleware) :
    RecoveryMiddleware :=
  RecoveryMiddleware.mk handler next

/-- `processRecovery` processes the recoveryMiddleware chain for a
recovery object: nil middleware yields nil; otherwise the node's handler
runs — a non-nil error stops the chain, nil advances to the next node. -/
def processRecovery (recoveryObj : Payload) : RecoveryMiddleware → Option SdkError
  | RecoveryMiddleware.nil => none
  | RecoveryMiddleware.mk handler next =>
    match handler recoveryObj with
    | some err => some err
    | none => processRecovery recoveryObj next

/-- The operations of the `sdk.GasMeter` interface used by the source:
the meters in the context are interface values, so the embedding is
parameterized by the meter's state type `σ` and its operations.
`consumeGas` returns the updated state together with an optional panic
payload (the interface's `ConsumeGas` may itself raise a fault). -/
structure MeterOps (σ : Type) where
  gasConsumed : σ → Nat
  gasConsumedToLimit : σ → Nat
  limit : σ → Nat
  isOutOfGas : σ → Bool
  consumeGas : σ → Nat → String → σ × Option Payload

/-- Modelled from the spec: the basic Resource Meter collaborator's
state — a fixed `limit` and a monotonically non-decreasing `consumed`
counter. -/
structure GasMeter where
  limit : Nat
  consumed : Nat
deriving DecidableEq

/-- Modelled from the spec: the basic Resource Meter's operations
(consume, query-consumed, query-limit, is-out-of-budget,
consumed-capped-to-limit). Consuming first records the new consumed
amount and then raises an out-of-budget fault when the limit is
exceeded — the source notes the block meter "will consume gas past the
limit" even when it faults. -/
def basicOps : MeterOps GasMeter where
  gasConsumed g := g.consumed
  gasConsumedToLimit g := min g.consumed g.limit
  limit g := g.limit
  isOutOfGas g := decide (g.limit ≤ g.consumed)
  consumeGas g amount descriptor :=
    let c := g.consumed + amount
    if g.limit < c then
      ({ g with consumed := c }, some (Payload.errorOutOfGas descriptor))
    else
      ({ g with consumed := c }, none)

/-- The slice of `sdk.Context` this middleware touches: the
transaction-scoped gas meter (`GasMeter()`) and the block-scoped gas
meter (`BlockGasMeter()`), each an interface value: operations plus
current state. -/
structure Ctx (τ σ : Type) where
  txOps : MeterOps τ
  blockOps : MeterOps σ
  gasMeter : τ
  blockGasMeter : σ

/-- The result of running the wrapped inner handler on the transaction
gas meter: either a normal return carrying the response and the
handler's own (possibly nil) error, or an abnormal termination carrying
a payload. -/
inductive Outcome (ρ : Type) where
  | ret (res : ρ) (err : Option SdkError)
  | panicked (p : Payload)

/-- `newOutOfGasRecoveryMiddleware` creates the standard OutOfGas
recovery middleware: its handler recognizes `sdk.ErrorOutOfGas`
payloads and resolves them with an out-of-gas error built from the
payload's descriptor, the `gasWanted` argument, and the context's
transaction meter's currently consumed amount; any other payload is not
processed. -/
def newOutOfGasRecoveryMiddleware {τ σ : Type} (gasWanted : Nat) (sdkCtx : Ctx τ σ)
    (next : RecoveryMiddleware) : RecoveryMiddleware :=
  newRecoveryMiddleware (fun recoveryObj =>
    match recoveryObj with
    | Payload.errorOutOfGas descriptor =>
      some (wrap ErrKind.outOfGas
        ("out of gas in location: " ++ descriptor ++ "; gasWanted: " ++ toString gasWanted
          ++ ", gasUsed: " ++ toString (sdkCtx.txOps.gasConsumed sdkCtx.gasMeter)))
    | _ => none) next

/-- `newDefaultRecoveryMiddleware` creates the default (last in chain)
recovery middleware: it unconditionally resolves any payload into an
`ErrPanic` error whose message holds the payload's textual
representation and the stack snapshot. -/
def newDefaultRecoveryMiddleware : RecoveryMiddleware :=
  newRecoveryMiddleware (fun recoveryObj =>
    some (wrap ErrKind.panicErr
      ("recovered: " ++ recoveryObj.toText ++ "\nstack:\n" ++ debugStack)))
    RecoveryMiddleware.nil

/-- `panicTxHandler.CheckTx`: runs the inner handler; on a normal return
the response and error pass through unchanged; on an abnormal
termination the deferred recovery reads the transaction meter's limit as
`gasWanted` and resolves the payload through the standard chain into the
returned error (the response is the zero value, embedded as `none`). -/
def checkTx {τ σ ρ : Type} (inner : τ → τ × Outcome ρ) (ctx : Ctx τ σ) :
    Ctx τ σ × Option ρ × Option SdkError :=
  let (gm, out) := inner ctx.gasMeter
  let ctx1 : Ctx τ σ := { ctx with gasMeter := gm }
  match out with
  | Outcome.ret r e => (ctx1, some r, e)
  | Outcome.panicked p =>
    let gasWanted := ctx1.txOps.limit ctx1.gasMeter
    (ctx1, none,
      processRecovery p (newOutOfGasRecoveryMiddleware gasWanted ctx1 newDefaultRecoveryMiddleware))

/-- `panicTxHandler.SimulateTx`: identical recovery shape to `CheckTx`;
no block-meter interaction. -/
def simulateTx {τ σ ρ : Type} (inner : τ → τ × Outcome ρ) (ctx : Ctx τ σ) :
    Ctx τ σ × Option ρ × Option SdkError :=
  let (gm, out) := inner ctx.gasMeter
  let ctx1 : Ctx τ σ := { ctx with gasMeter := gm }
  match out with
  | Outcome.ret r e => (ctx1, some r, e)
  | Outcome.panicked p =>
    let gasWanted := ctx1.txOps.limit ctx1.gasMeter
    (ctx1, none,
      processRecovery p (newOutOfGasRecoveryMiddleware gasWanted ctx1 newDefaultRecoveryMiddleware))

/-- The inner deferred block of `DeliverTx`: consume the transaction
meter's consumed-to-limit amount into the block meter (this may itself
raise a fault, aborting the block early), then — only if consuming
returned — raise `sdk.ErrorGasOverflow` with descriptor
"tx gas summation" when the block meter's consumed amount dropped below
the amount recorded at entry. Returns the updated block-meter state and
the payload of the abnormal termination, if one was raised. -/
def reconcile {σ : Type} (blockOps : MeterOps σ) (blockGM : σ) (consumedToLimit : Nat)
    (startingGas : Nat) : σ × Option Payload :=
  let (b1, pan) := blockOps.consumeGas blockGM consumedToLimit "block gas meter"
  match pan with
  | some q => (b1, some q)
  | none =>
    if blockOps.gasConsumed b1 < startingGas then
      (b1, some (Payload.errorGasOverflow "tx gas summation"))
    else
      (b1, none)

/-- `panicTxHandler.DeliverTx`: if the block gas meter is already out of
gas, return the "no block gas left to run tx" error without touching the
inner handler. Otherwise record the block meter's consumed amount
(`startingGas`), run the inner handler, then (deferred, LIFO) run
`reconcile`; finally the outer deferred recovery catches whichever
abnormal termination is active — the reconciliation step's payload
supersedes the handler's — and resolves it through the standard chain.
A reconciliation fault after a normal return overwrites the returned
error while the response keeps the inner handler's value; an abnormal
termination of the handler leaves the response at its zero value. -/
def deliverTx {τ σ ρ : Type} (inner : τ → τ × Outcome ρ) (ctx : Ctx τ σ) :
    Ctx τ σ × Option ρ × Option SdkError :=
  if ctx.blockOps.isOutOfGas ctx.blockGasMeter then
    (ctx, none, some (wrap ErrKind.outOfGas "no block gas left to run tx"))
  else
    let startingGas := ctx.blockOps.gasConsumed ctx.blockGasMeter
    let (gm, out) := inner ctx.gasMeter
    let (bgm, reconPanic) :=
      reconcile ctx.blockOps ctx.blockGasMeter (ctx.txOps.gasConsumedToLimit gm) startingGas
    let ctx1 : Ctx τ σ := { ctx with gasMeter := gm, blockGasMeter := bgm }
    let gasWanted := ctx1.txOps.limit ctx1.gasMeter
    let chain := newOutOfGasRecoveryMiddleware gasWanted ctx1 newDefaultRecoveryMiddleware
    match out, reconPanic with
    | Outcome.ret r e, none => (ctx1, some r, e)
    | Outcome.ret r _, some q => (ctx1, some r, processRecovery q chain)
    | Outcome.panicked p, none => (ctx1, none, processRecovery p chain)
    | Outcome.panicked _, some q => (ctx1, none, processRecovery q chain)

/-- Observable execution events of one `DeliverTx` call, used to state
ordering and exactly-once properties. -/
inductive Event where
  | handlerRun
  | reconcileRun
  | recoveryResolve
deriving DecidableEq

/-- `deliverTx` instrumented with the sequence of execution events:
identical control flow, additionally recording when the inner handler
runs, when the reconciliation step runs, and when an abnormal
termination is resolved through the recovery chain. -/
def deliverTxTrace {τ σ ρ : Type} (inner : τ → τ × Outcome ρ) (ctx : Ctx τ σ) :
    (Ctx τ σ × Option ρ × Option SdkError) × List Event :=
  if ctx.blockOps.isOutOfGas ctx.blockGasMeter then
    ((ctx, none, some (wrap ErrKind.outOfGas "no block gas left to run tx")), [])
  else
    let startingGas := ctx.blockOps.gasConsumed ctx.blockGasMeter
    let (gm, out) := inner ctx.gasMeter
    let (bgm, reconPanic) :=
      reconcile ctx.blockOps ctx.blockGasMeter (ctx.txOps.gasConsumedToLimit gm) startingGas
    let ctx1 : Ctx τ σ := { ctx with gasMeter := gm, blockGasMeter := bgm }
    let gasWanted := ctx1.txOps.limit ctx1.gasMeter
    let chain := newOutOfGasRecoveryMiddleware gasWanted ctx1 newDefaultRecoveryMiddleware
    match out, reconPanic with
    | Outcome.ret r e, none =>
      ((ctx1, some r, e), [Event.handlerRun, Event.reconcileRun])
    | Outcome.ret r _, some q =>
      ((ctx1, some r, processRecovery q chain),
        [Event.handlerRun, Event.reconcileRun, Event.recoveryResolve])
    | Outcome.panicked p, none =>
      ((ctx1, none, processRecovery p chain),
        [Event.handlerRun, Event.reconcileRun, Event.recoveryResolve])
    | Outcome.panicked _, some q =>
      ((ctx1, none, processRecovery q chain),
        [Event.handlerRun, Event.reconcileRun, Event.recoveryResolve])

/-- `processRecovery` restated over the list of handlers a finitely
constructed chain holds, additionally returning the handlers invoked, in
invocation order: head to tail, stopping at (and including) the first
handler that returns a non-nil error. -/
def runHandlers (recoveryObj : Payload) : List RecoveryHandler →
    Option SdkError × List RecoveryHandler
  | [] => (none, [])
  | h :: rest =>
    match h recoveryObj with
    | some err => (some err, [h])
    | none =>
      let (r, tr) := runHandlers recoveryObj rest
      (r, h :: tr)

/-- Builds the finitely constructed chain holding the given handlers in
order, terminated by the nil middleware. -/
def ofList : List RecoveryHandler → RecoveryMiddleware
  | [] => RecoveryMiddleware.nil
  | h :: rest => newRecoveryMiddleware h (ofList rest)

theorem standardChain_isSome {τ σ : Type} (p : Payload) (gasWanted : Nat) (ctx : Ctx τ σ) :
    (processRecovery p
      (newOutOfGasRecoveryMiddleware gasWanted ctx newDefaultRecoveryMiddleware)).isSome := by
  cases p <;>
    simp [processRecovery, newOutOfGasRecoveryMiddleware, newRecoveryMiddleware,
      newDefaultRecoveryMiddleware]

/-- C1: every abnormal termination raised by the wrapped inner handler is
resolved into a non-nil structured error by each of the three entry
points: CheckTx, SimulateTx and DeliverTx all return a non-nil error
value, and (the entry points being total functions of the embedding) the
caller observes only a normal response or a structured error — the
payload is never re-raised past the entry-point boundary. -/
theorem c1_panic_contained {τ σ ρ : Type} (inner : τ → τ × Outcome ρ) (ctx : Ctx τ σ)
    (gm : τ) (p : Payload) (hrun : inner ctx.gasMeter = (gm, Outcome.panicked p)) :
    ((checkTx inner ctx).2.2).isSome ∧ ((simulateTx inner ctx).2.2).isSome ∧
      ((deliverTx inner ctx).2.2).isSome := by
  refine ⟨?_, ?_, ?_⟩
  · simp only [checkTx, hrun]
    exact standardChain_isSome _ _ _
  · simp only [simulateTx, hrun]
    exact standardChain_isSome _ _ _
  · by_cases hpre : ctx.blockOps.isOutOfGas ctx.blockGasMeter
    · simp [deliverTx, hpre]
    · rcases hrec : reconcile ctx.blockOps ctx.blockGasMeter (ctx.txOps.gasConsumedToLimit gm)
        (ctx.blockOps.gasConsumed ctx.blockGasMeter) with ⟨bgm, rp⟩
      cases rp <;> simp [deliverTx, hpre, hrun, hrec] <;> exact standardChain_isSome _ _ _

theorem c1_witness :
    ((checkTx (fun gm : GasMeter => (gm, (Outcome.panicked (Payload.other "boom") : Outcome Unit)))
        (Ctx.mk basicOps basicOps (GasMeter.mk 100 0) (GasMeter.mk 1000 0))).2.2).isSome ∧
      ((simulateTx (fun gm : GasMeter => (gm, (Outcome.panicked (Payload.other "boom") : Outcome Unit)))
        (Ctx.mk basicOps basicOps (GasMeter.mk 100 0) (GasMeter.mk 1000 0))).2.2).isSome ∧
      ((deliverTx (fun gm : GasMeter => (gm, (Outcome.panicked (Payload.other "boom") : Outcome Unit)))
        (Ctx.mk basicOps basicOps (GasMeter.mk 100 0) (GasMeter.mk 1000 0))).2.2).isSome :=
  c1_panic_contained _ _ _ _ rfl

/-- C5: the budget-fault handler, constructed with the transaction
meter's configured limit as gasWanted, resolves a recognized
out-of-gas payload into a non-nil out-of-gas error whose message
carries the payload's descriptor, that gasWanted, and the transaction
meter's currently consumed amount as gasUsed; every other payload is
deferred to the next handler in the chain. -/
theorem c5_budget_fault_handler {τ σ : Type} (ctx : Ctx τ σ) (next : RecoveryMiddleware)
    (d : String) :
    processRecovery (Payload.errorOutOfGas d)
        (newOutOfGasRecoveryMiddleware (ctx.txOps.limit ctx.gasMeter) ctx next)
      = some (wrap ErrKind.outOfGas
          ("out of gas in location: " ++ d ++ "; gasWanted: "
            ++ toString (ctx.txOps.limit ctx.gasMeter) ++ ", gasUsed: "
            ++ toString (ctx.txOps.gasConsumed ctx.gasMeter)))
    ∧ (∃ s1 s2 : String,
        "out of gas in location: " ++ d ++ "; gasWanted: "
            ++ toString (ctx.txOps.limit ctx.gasMeter) ++ ", gasUsed: "
            ++ toString (ctx.txOps.gasConsumed ctx.gasMeter)
          = s1 ++ d ++ s2)
    ∧ ∀ p : Payload, p.isErrorOutOfGas = false →
        processRecovery p (newOutOfGasRecoveryMiddleware (ctx.txOps.limit ctx.gasMeter) ctx next)
          = processRecovery p next := by
  refine ⟨rfl, ⟨"out of gas in location: ",
      "; gasWanted: " ++ toString (ctx.txOps.limit ctx.gasMeter) ++ ", gasUsed: "
        ++ toString (ctx.txOps.gasConsumed ctx.gasMeter), by simp [String.append_assoc]⟩, ?_⟩
  intro p hp
  cases p with
  | errorOutOfGas d' => simp [Payload.isErrorOutOfGas] at hp
  | errorGasOverflow d' =>
      simp [processRecovery, newOutOfGasRecoveryMiddleware, newRecoveryMiddleware]
  | other t =>
      simp [processRecovery, newOutOfGasRecoveryMiddleware, newRecoveryMiddleware]

theorem c5_witness :
    processRecovery (Payload.errorOutOfGas "storage read")
        (newOutOfGasRecoveryMiddleware
          (basicOps.limit (GasMeter.mk 100 40))
          (Ctx.mk basicOps basicOps (GasMeter.mk 100 40) (GasMeter.mk 1000 0))
          RecoveryMiddleware.nil)
      = some (wrap ErrKind.outOfGas
          "out of gas in location: storage read; gasWanted: 100, gasUsed: 40")
    ∧ processRecovery (Payload.other "unrecognized")
        (newOutOfGasRecoveryMiddleware
          (basicOps.limit (GasMeter.mk 100 40))
          (Ctx.mk basicOps basicOps (GasMeter.mk 100 40) (GasMeter.mk 1000 0))
          RecoveryMiddleware.nil)
      = processRecovery (Payload.other "unrecognized") RecoveryMiddleware.nil := by
  have H := c5_budget_fault_handler
    (Ctx.mk basicOps basicOps (GasMeter.mk 100 40) (GasMeter.mk 1000 0))
    RecoveryMiddleware.nil "storage read"
  exact ⟨by rw [H.1]; rfl, H.2.2 (Payload.other "unrecognized") rfl⟩

/-- C6: the default (terminal) handler unconditionally resolves every
payload — recognized or not — into a non-nil generic abnormal-termination
(ErrPanic) error whose message contains the payload's textual
representation and the call-stack snapshot taken at catch time; hence
resolving any payload through the standard chain (budget handler then
default handler) always yields a non-nil error. -/
theorem c6_default_handler (p : Payload) :
    processRecovery p newDefaultRecoveryMiddleware
      = some (wrap ErrKind.panicErr
          ("recovered: " ++ p.toText ++ "\nstack:\n" ++ debugStack))
    ∧ (∃ s1 s2 : String,
        "recovered: " ++ p.toText ++ "\nstack:\n" ++ debugStack = s1 ++ p.toText ++ s2)
    ∧ (∃ s3 s4 : String,
        "recovered: " ++ p.toText ++ "\nstack:\n" ++ debugStack = s3 ++ debugStack ++ s4)
    ∧ ∀ (gasWanted : Nat) (ctx : Ctx Nat Nat),
        (processRecovery p
          (newOutOfGasRecoveryMiddleware gasWanted ctx newDefaultRecoveryMiddleware)).isSome := by
  refine ⟨rfl, ⟨"recovered: ", "\nstack:\n" ++ debugStack, by simp [String.append_assoc]⟩,
    ⟨"recovered: " ++ p.toText ++ "\nstack:\n", "", by simp [String.append_assoc]⟩, ?_⟩
  intro gasWanted ctx
  exact standardChain_isSome _ _ _

/-- C2: with the basic meters, a DeliverTx call that passes the
block-gas pre-check and whose wrapped handler returns successfully
increases the block meter's consumed amount by exactly
min(transaction meter consumed, transaction meter limit). -/
theorem c2_block_consume {ρ : Type} (inner : GasMeter → GasMeter × Outcome ρ)
    (tgm bgm gm : GasMeter) (r : ρ)
    (hpre : basicOps.isOutOfGas bgm = false)
    (hrun : inner tgm = (gm, Outcome.ret r none)) :
    ((deliverTx inner (Ctx.mk basicOps basicOps tgm bgm)).1).blockGasMeter.consumed
      = bgm.consumed + min gm.consumed gm.limit := by
  have hpre' : ¬ (bgm.limit ≤ bgm.consumed) := by simpa [basicOps] using hpre
  by_cases hlim : bgm.limit < bgm.consumed + min gm.consumed gm.limit <;>
    simp [deliverTx, hpre', hrun, reconcile, basicOps, hlim]

theorem c2_witness :
    ((deliverTx (fun g : GasMeter => ({ g with consumed := g.consumed + 150 },
          (Outcome.ret () none : Outcome Unit)))
        (Ctx.mk basicOps basicOps (GasMeter.mk 200 0)
          (GasMeter.mk 10000 500))).1).blockGasMeter.consumed = 650 := by
  have H := c2_block_consume
    (fun g : GasMeter => ({ g with consumed := g.consumed + 150 },
      (Outcome.ret () none : Outcome Unit)))
    (GasMeter.mk 200 0) (GasMeter.mk 10000 500) (GasMeter.mk 200 150) () (by decide) rfl
  exact H.trans (by decide)

/-- A test-injected block-meter implementation whose consume operation
makes the consumed counter decrease: the state is the consumed amount
and consuming subtracts. Used to exercise the reconciliation
invariant check, which guards against exactly such upstream accounting
faults. -/
def shrinkOps : MeterOps Nat where
  gasConsumed n := n
  gasConsumedToLimit n := n
  limit _ := 1000000
  isOutOfGas _ := false
  consumeGas n amount _ := (n - amount, none)

/-- C3 (amended): if the reconciliation step's consume call returns
without fault yet leaves the block meter's consumed amount below the
amount recorded at entry, DeliverTx raises the gas-overflow payload
with descriptor "tx gas summation", which the outer recovery scope
resolves through the default handler into a non-nil generic
abnormal-termination (ErrPanic) error whose message contains that
descriptor — even though the wrapped handler itself returned
successfully — and the decreased block-meter state is kept, never
silently corrected. -/
theorem c3_invariant_violation {τ σ ρ : Type} (inner : τ → τ × Outcome ρ) (ctx : Ctx τ σ)
    (gm : τ) (r : ρ) (e0 : Option SdkError) (bgm1 : σ)
    (hpre : ctx.blockOps.isOutOfGas ctx.blockGasMeter = false)
    (hrun : inner ctx.gasMeter = (gm, Outcome.ret r e0))
    (hcons : ctx.blockOps.consumeGas ctx.blockGasMeter (ctx.txOps.gasConsumedToLimit gm)
        "block gas meter" = (bgm1, none))
    (hdec : ctx.blockOps.gasConsumed bgm1 < ctx.blockOps.gasConsumed ctx.blockGasMeter) :
    (deliverTx inner ctx).2.2
        = some (wrap ErrKind.panicErr
            ("recovered: " ++ (Payload.errorGasOverflow "tx gas summation").toText
              ++ "\nstack:\n" ++ debugStack))
      ∧ (∃ s1 s2 : String,
          "recovered: " ++ (Payload.errorGasOverflow "tx gas summation").toText
              ++ "\nstack:\n" ++ debugStack
            = s1 ++ "tx gas summation" ++ s2)
      ∧ (deliverTx inner ctx).2.1 = some r
      ∧ ((deliverTx inner ctx).1).blockGasMeter = bgm1 := by
  have hrec : reconcile ctx.blockOps ctx.blockGasMeter (ctx.txOps.gasConsumedToLimit gm)
      (ctx.blockOps.gasConsumed ctx.blockGasMeter)
      = (bgm1, some (Payload.errorGasOverflow "tx gas summation")) := by
    simp [reconcile, hcons, hdec]
  refine ⟨?_, ⟨"recovered: \x7b", "\x7d\nstack:\n" ++ debugStack, rfl⟩, ?_, ?_⟩ <;>
    simp [deliverTx, hpre, hrun, hrec, processRecovery, newOutOfGasRecoveryMiddleware,
      newRecoveryMiddleware, newDefaultRecoveryMiddleware]

/-- C3 counterexample: in the injected-meter scenario (block consumed
500, transaction meter limit 200 with 150 consumed, handler returning
successfully, block consume decreasing the counter to 350), DeliverTx
returns a non-nil error of the generic abnormal-termination kind
(ErrPanic), not of a dedicated accounting-invariant-violation kind as
the claim states. -/
theorem c3_counterexample :
    (deliverTx
        (fun g : GasMeter => ({ g with consumed := g.consumed + 150 },
          (Outcome.ret () none : Outcome Unit)))
        (Ctx.mk basicOps shrinkOps (GasMeter.mk 200 0) 500)).2.2
      = some (wrap ErrKind.panicErr
          ("recovered: " ++ (Payload.errorGasOverflow "tx gas summation").toText
            ++ "\nstack:\n" ++ debugStack))
    ∧ ErrKind.panicErr ≠ ErrKind.accountingInvariantViolation := by
  exact ⟨rfl, by decide⟩

theorem c3_witness :
    (deliverTx
        (fun g : GasMeter => ({ g with consumed := g.consumed + 150 },
          (Outcome.ret () none : Outcome Unit)))
        (Ctx.mk basicOps shrinkOps (GasMeter.mk 200 0) 500)).2.2
      = some (wrap ErrKind.panicErr
          ("recovered: " ++ (Payload.errorGasOverflow "tx gas summation").toText
            ++ "\nstack:\n" ++ debugStack))
    ∧ (deliverTx
        (fun g : GasMeter => ({ g with consumed := g.consumed + 150 },
          (Outcome.ret () none : Outcome Unit)))
        (Ctx.mk basicOps shrinkOps (GasMeter.mk 200 0) 500)).2.1 = some ()
    ∧ ((deliverTx
        (fun g : GasMeter => ({ g with consumed := g.consumed + 150 },
          (Outcome.ret () none : Outcome Unit)))
        (Ctx.mk basicOps shrinkOps (GasMeter.mk 200 0) 500)).1).blockGasMeter = 350 := by
  have H := c3_invariant_violation
    (fun g : GasMeter => ({ g with consumed := g.consumed + 150 },
      (Outcome.ret () none : Outcome Unit)))
    (Ctx.mk basicOps shrinkOps (GasMeter.mk 200 0) 500)
    (GasMeter.mk 200 150) () none 350 rfl rfl rfl (by decide)
  exact ⟨H.1, H.2.2.1, H.2.2.2⟩

/-- C4: for every DeliverTx call that passes the block-gas pre-check,
the reconciliation/invariant-check step runs exactly once — whatever the
wrapped handler's outcome — and it runs after the handler's exit and
before any recovery resolution; moreover the traced run agrees with
`deliverTx`, and a payload raised by the reconciliation step itself is
resolved through the outer recovery chain into the returned error. -/
theorem c4_reconcile_once {τ σ ρ : Type} (inner : τ → τ × Outcome ρ) (ctx : Ctx τ σ)
    (hpre : ctx.blockOps.isOutOfGas ctx.blockGasMeter = false) :
    (deliverTxTrace inner ctx).1 = deliverTx inner ctx
    ∧ ((deliverTxTrace inner ctx).2).count Event.reconcileRun = 1
    ∧ ((deliverTxTrace inner ctx).2 = [Event.handlerRun, Event.reconcileRun]
        ∨ (deliverTxTrace inner ctx).2
            = [Event.handlerRun, Event.reconcileRun, Event.recoveryResolve])
    ∧ ∀ (gm : τ) (out : Outcome ρ) (bgm : σ) (q : Payload),
        inner ctx.gasMeter = (gm, out) →
        reconcile ctx.blockOps ctx.blockGasMeter (ctx.txOps.gasConsumedToLimit gm)
            (ctx.blockOps.gasConsumed ctx.blockGasMeter) = (bgm, some q) →
        (deliverTx inner ctx).2.2
          = processRecovery q
              (newOutOfGasRecoveryMiddleware (ctx.txOps.limit gm)
                { ctx with gasMeter := gm, blockGasMeter := bgm }
                newDefaultRecoveryMiddleware) := by
  rcases h1 : inner ctx.gasMeter with ⟨gm, out⟩
  rcases h2 : reconcile ctx.blockOps ctx.blockGasMeter (ctx.txOps.gasConsumedToLimit gm)
      (ctx.blockOps.gasConsumed ctx.blockGasMeter) with ⟨bgm, rp⟩
  refine ⟨?_, ?_, ?_, ?_⟩
  · cases out <;> cases rp <;> simp [deliverTx, deliverTxTrace, hpre, h1, h2]
  · cases out <;> cases rp <;> simp [deliverTxTrace, hpre, h1, h2, List.count]
  · cases out <;> cases rp <;> simp [deliverTxTrace, hpre, h1, h2]
  · intro gm' out' bgm' q h1' h2'
    have hh : gm = gm' ∧ out = out' := by simpa using h1'
    obtain ⟨rfl, rfl⟩ := hh
    have hh2 : bgm = bgm' ∧ rp = some q := by
      have h22 := h2.symm.trans h2'
      simpa using h22
    obtain ⟨rfl, rfl⟩ := hh2
    cases out <;> simp [deliverTx, hpre, h1, h2]

theorem c4_witness :
    ((deliverTxTrace (fun g : GasMeter => (g, (Outcome.panicked (Payload.other "boom")
          : Outcome Unit)))
        (Ctx.mk basicOps basicOps (GasMeter.mk 100 0)
          (GasMeter.mk 1000 0))).2).count Event.reconcileRun = 1 :=
  (c4_reconcile_once (fun g : GasMeter => (g, (Outcome.panicked (Payload.other "boom")
      : Outcome Unit)))
    (Ctx.mk basicOps basicOps (GasMeter.mk 100 0) (GasMeter.mk 1000 0)) (by decide)).2.1

/-- C7: when the block gas meter already reports out of gas, DeliverTx
returns the non-nil "no block gas left to run tx" out-of-gas error at
once: the response is the zero value and the traced run records no
events at all — in particular the wrapped inner handler is never
invoked. -/
theorem c7_precheck_short_circuit {τ σ ρ : Type} (inner : τ → τ × Outcome ρ) (ctx : Ctx τ σ)
    (hpre : ctx.blockOps.isOutOfGas ctx.blockGasMeter = true) :
    (deliverTx inner ctx).2.2 = some (wrap ErrKind.outOfGas "no block gas left to run tx")
    ∧ (deliverTx inner ctx).2.1 = none
    ∧ (deliverTxTrace inner ctx).2 = []
    ∧ Event.handlerRun ∉ (deliverTxTrace inner ctx).2 := by
  refine ⟨?_, ?_, ?_, ?_⟩ <;> simp [deliverTx, deliverTxTrace, hpre]

theorem c7_witness :
    (deliverTx (fun g : GasMeter => (g, (Outcome.ret 7 none : Outcome Nat)))
        (Ctx.mk basicOps basicOps (GasMeter.mk 100 0) (GasMeter.mk 100 100))).2.2
      = some (wrap ErrKind.outOfGas "no block gas left to run tx")
    ∧ (deliverTx (fun g : GasMeter => (g, (Outcome.ret 7 none : Outcome Nat)))
        (Ctx.mk basicOps basicOps (GasMeter.mk 100 0) (GasMeter.mk 100 100))).2.1 = none
    ∧ (deliverTxTrace (fun g : GasMeter => (g, (Outcome.ret 7 none : Outcome Nat)))
        (Ctx.mk basicOps basicOps (GasMeter.mk 100 0) (GasMeter.mk 100 100))).2 = []
    ∧ Event.handlerRun ∉ (deliverTxTrace (fun g : GasMeter => (g, (Outcome.ret 7 none
          : Outcome Nat)))
        (Ctx.mk basicOps basicOps (GasMeter.mk 100 0) (GasMeter.mk 100 100))).2 :=
  c7_precheck_short_circuit _ _ (by decide)

/-- C9: SimulateTx leaves the block-scoped meter exactly as it was —
state and operations — for every inner handler (succeeding or
faulting), and its response and error do not depend on the block
meter's state at all. -/
theorem c9_simulate_block_frame {τ σ ρ : Type} (inner : τ → τ × Outcome ρ) (ctx : Ctx τ σ) :
    ((simulateTx inner ctx).1).blockGasMeter = ctx.blockGasMeter
    ∧ ((simulateTx inner ctx).1).blockOps = ctx.blockOps
    ∧ ∀ b : σ, (simulateTx inner { ctx with blockGasMeter := b }).2 = (simulateTx inner ctx).2 := by
  rcases h1 : inner ctx.gasMeter with ⟨gm, out⟩
  refine ⟨?_, ?_, ?_⟩
  · cases out <;> simp [simulateTx, h1]
  · cases out <;> simp [simulateTx, h1]
  · intro b
    cases out with
    | ret r e => simp [simulateTx, h1]
    | panicked p =>
      cases p <;>
        simp [simulateTx, h1, processRecovery, newOutOfGasRecoveryMiddleware,
          newRecoveryMiddleware, newDefaultRecoveryMiddleware]

/-- C10: when DeliverTx short-circuits on the block-gas pre-check it
performs no gas consumption at all: the returned context — transaction
meter and block meter included — is exactly the input context, and the
traced run records no reconciliation step. -/
theorem c10_short_circuit_frame {τ σ ρ : Type} (inner : τ → τ × Outcome ρ) (ctx : Ctx τ σ)
    (hpre : ctx.blockOps.isOutOfGas ctx.blockGasMeter = true) :
    (deliverTx inner ctx).1 = ctx
    ∧ ((deliverTx inner ctx).1).gasMeter = ctx.gasMeter
    ∧ ((deliverTx inner ctx).1).blockGasMeter = ctx.blockGasMeter
    ∧ ((deliverTxTrace inner ctx).2).count Event.reconcileRun = 0 := by
  refine ⟨?_, ?_, ?_, ?_⟩ <;> simp [deliverTx, deliverTxTrace, hpre]

theorem c10_witness :
    (deliverTx (fun g : GasMeter => (g, (Outcome.ret 7 none : Outcome Nat)))
        (Ctx.mk basicOps basicOps (GasMeter.mk 100 0) (GasMeter.mk 100 100))).1
      = Ctx.mk basicOps basicOps (GasMeter.mk 100 0) (GasMeter.mk 100 100)
    ∧ ((deliverTx (fun g : GasMeter => (g, (Outcome.ret 7 none : Outcome Nat)))
        (Ctx.mk basicOps basicOps (GasMeter.mk 100 0) (GasMeter.mk 100 100))).1).gasMeter
      = GasMeter.mk 100 0
    ∧ ((deliverTx (fun g : GasMeter => (g, (Outcome.ret 7 none : Outcome Nat)))
        (Ctx.mk basicOps basicOps (GasMeter.mk 100 0) (GasMeter.mk 100 100))).1).blockGasMeter
      = GasMeter.mk 100 100
    ∧ ((deliverTxTrace (fun g : GasMeter => (g, (Outcome.ret 7 none : Outcome Nat)))
        (Ctx.mk basicOps basicOps (GasMeter.mk 100 0)
          (GasMeter.mk 100 100))).2).count Event.reconcileRun = 0 :=
  c10_short_circuit_frame _ _ (by decide)

theorem runHandlers_cons_some (recoveryObj : Payload) (h : RecoveryHandler)
    (rest : List RecoveryHandler) (err : SdkError) (hh : h recoveryObj = some err) :
    runHandlers recoveryObj (h :: rest) = (some err, [h]) := by
  simp [runHandlers, hh]

theorem runHandlers_cons_none (recoveryObj : Payload) (h : RecoveryHandler)
    (rest : List RecoveryHandler) (hh : h recoveryObj = none) :
    runHandlers recoveryObj (h :: rest)
      = ((runHandlers recoveryObj rest).1, h :: (runHandlers recoveryObj rest).2) := by
  simp [runHandlers, hh]

theorem processRecovery_ofList_cons_none (recoveryObj : Payload) (h : RecoveryHandler)
    (rest : List RecoveryHandler) (hh : h recoveryObj = none) :
    processRecovery recoveryObj (ofList (h :: rest))
      = processRecovery recoveryObj (ofList rest) := by
  simp [ofList, newRecoveryMiddleware, processRecovery, hh]

/-- C8: `processRecovery` over any finitely constructed chain applies
the handlers strictly head to tail: the empty chain resolves to nil; the
run agrees with `runHandlers`, whose invocation record shows that when
the result is nil every handler was invoked exactly once in order, and
when the result is an error it is the first non-nil error produced — the
invocation record is exactly the prefix of the chain up to and including
the first succeeding handler, so each earlier handler ran exactly once,
no later handler ran, and no handler was re-invoked. -/
theorem c8_process_recovery (hs : List RecoveryHandler) (recoveryObj : Payload) :
    processRecovery recoveryObj RecoveryMiddleware.nil = none
    ∧ processRecovery recoveryObj (ofList hs) = (runHandlers recoveryObj hs).1
    ∧ ((runHandlers recoveryObj hs).1 = none → (runHandlers recoveryObj hs).2 = hs)
    ∧ ∀ e : SdkError, (runHandlers recoveryObj hs).1 = some e →
        ∃ k h, hs[k]? = some h ∧ h recoveryObj = some e
          ∧ (runHandlers recoveryObj hs).2 = hs.take (k + 1)
          ∧ ∀ j hj, j < k → hs[j]? = some hj → hj recoveryObj = none := by
  refine ⟨rfl, ?_⟩
  induction hs with
  | nil =>
    refine ⟨rfl, fun _ => rfl, fun e he => ?_⟩
    simp [runHandlers] at he
  | cons h rest ih =>
    rcases hh : h recoveryObj with _ | err
    · rw [runHandlers_cons_none recoveryObj h rest hh,
        processRecovery_ofList_cons_none recoveryObj h rest hh]
      refine ⟨ih.1, ?_, ?_⟩
      · intro hnone
        rw [ih.2.1 hnone]
      · intro e he
        obtain ⟨k, hk, hget, hke, htr, hprev⟩ := ih.2.2 e he
        refine ⟨k + 1, hk, by simpa using hget, hke, ?_, ?_⟩
        · simp [List.take_succ_cons, htr]
        · intro j hj hjk hjget
          match j with
          | 0 =>
            have hjh : h = hj := by simpa using hjget
            rw [← hjh]; exact hh
          | j' + 1 =>
            exact hprev j' hj (by omega) (by simpa using hjget)
    · rw [runHandlers_cons_some recoveryObj h rest err hh]
      refine ⟨?_, ?_, ?_⟩
      · simp [ofList, newRecoveryMiddleware, processRecovery, hh]
      · intro hnone
        exact absurd hnone (by simp)
      · intro e he
        have herr : err = e := by simpa using he
        refine ⟨0, h, by simp, by rw [hh, herr], by simp, ?_⟩
        intro j hj hjk
        omega

/-- A handler that defers every payload. -/
def handlerA : RecoveryHandler := fun _ => none

/-- A handler that resolves every payload. -/
def handlerB : RecoveryHandler := fun _ => some (wrap ErrKind.outOfGas "resolved by B")

/-- A handler placed after a resolving one; it is never reached. -/
def handlerC : RecoveryHandler := fun _ => some (wrap ErrKind.panicErr "resolved by C")

theorem c8_witness :
    processRecovery (Payload.other "w") (ofList [handlerA, handlerB, handlerC])
      = (runHandlers (Payload.other "w") [handlerA, handlerB, handlerC]).1
    ∧ ∃ k h, [handlerA, handlerB, handlerC][k]? = some h
        ∧ h (Payload.other "w") = some (wrap ErrKind.outOfGas "resolved by B")
        ∧ (runHandlers (Payload.other "w") [handlerA, handlerB, handlerC]).2
            = [handlerA, handlerB, handlerC].take (k + 1)
        ∧ ∀ j hj, j < k → [handlerA, handlerB, handlerC][j]? = some hj
            → hj (Payload.other "w") = none := by
  have H := c8_process_recovery [handlerA, handlerB, handlerC] (Payload.other "w")
  exact ⟨H.2.1, H.2.2.2 (wrap ErrKind.outOfGas "resolved by B") rfl⟩
